import Mathlib

/-!
Shallow embedding of `tonkonbot.py`, a Twisted IRC log bot.

The bot consists of:
* `MessageLogger` — appends timestamped lines to an open file handle and flushes;
* `LogBot` — the IRC client: `connectionMade`/`connectionLost` manage the logger,
  `signedOn`/`joined` drive the channel join, `privmsg`/`action`/`irc_NICK` route
  inbound events, `alterCollidedNick` resolves nickname collisions;
* `LogBotFactory` — opens the per-channel log path and supervises reconnection.

Python effects are made explicit: wall-clock time is passed in as data, the file
system is a map from paths to contents, outbound IRC actions (`self.msg`,
`self.join`, the call to `tonkon.command_handler`) are accumulated in lists, and
an access to the unbound `self.logger` attribute is an `Except.error`
(Python's `AttributeError`).
-/

/-- A local wall-clock time as returned by `time.localtime`, restricted to the
fields used by `time.strftime("[%H:%M:%S]", ...)`. -/
structure HMS where
  hour : Nat
  minute : Nat
  second : Nat
deriving DecidableEq, Repr

/-- Zero-padded two-digit rendering used by `%H`, `%M`, `%S`. -/
def pad2 (n : Nat) : String :=
  if n < 10 then "0" ++ toString n else toString n

/-- `time.strftime("[%H:%M:%S]", t)`. -/
def strftimeHMS (t : HMS) : String :=
  "[" ++ pad2 t.hour ++ ":" ++ pad2 t.minute ++ ":" ++ pad2 t.second ++ "]"

/-- The state of a `MessageLogger` and its underlying file handle.
`init` is the file's contents when the handle was opened (append mode keeps
them), `writes` the chunks written since, in order; `flushed` records whether
the handle was flushed after the last write, `closed` whether `close` ran. -/
structure MessageLogger where
  init : String
  writes : List String
  flushed : Bool
  closed : Bool
deriving DecidableEq, Repr

/-- `MessageLogger.log`: format the current local time as `[%H:%M:%S]`, write
`'%s %s\n' % (timestamp, message)` to the file and flush it. -/
def MessageLogger.log (l : MessageLogger) (t : HMS) (message : String) : MessageLogger :=
  let timestamp := strftimeHMS t
  { l with writes := l.writes ++ [timestamp ++ " " ++ message ++ "\n"], flushed := true }

/-- `MessageLogger.close`: `self.file.close()`. -/
def MessageLogger.close (l : MessageLogger) : MessageLogger :=
  { l with closed := true }

/-- The file contents visible on disk: since `log` flushes after every write,
this is the opening contents followed by every written chunk. -/
def MessageLogger.contents (l : MessageLogger) : String :=
  l.writes.foldl (fun a s => a ++ s) l.init

/-- The file system, as a map from paths to file contents (a missing file reads
as the empty string for the purpose of append-mode opening). -/
def FS : Type := String → String

/-- `open(path, "a")`: an append-mode handle starts after the existing
contents; nothing is truncated. -/
def openAppend (fs : FS) (path : String) : MessageLogger :=
  { init := fs path, writes := [], flushed := false, closed := false }

/-- The disk after a logger on `path` has had its writes flushed: `path` holds
the logger's contents, every other file is untouched. -/
def flushTo (fs : FS) (path : String) (l : MessageLogger) : FS :=
  fun p => if p = path then l.contents else fs p

/-- `user.split('!', 1)[0]` (and `prefix.split('!')[0]`): everything before the
first `'!'`, the whole string when there is none. -/
def stripUser (user : String) : String :=
  ⟨user.data.takeWhile (fun c => c ≠ '!')⟩

/-- The fixed refusal text sent in reply to a private message. -/
def whisperReply : String :=
  "It isn't nice to whisper!  Play nice with the group."

/-- The state of a `LogBot` protocol instance.  `nickname`, and the factory
attributes `channel`, `key` and `filename`, are the configuration; `logger` is
`none` until `connectionMade` binds the attribute; `sent` records the outbound
`self.msg(target, text)` calls, `joins` the `self.join(channel, key)` calls,
and `dispatched` the `tonkon.command_handler(self, user, channel, msg)` calls
(the connection handle being the bot itself). -/
structure LogBot where
  nickname : String
  channel : String
  key : String
  filename : String
  logger : Option MessageLogger
  sent : List (String × String)
  joins : List (String × String)
  dispatched : List (String × String × String)
deriving DecidableEq, Repr

/-- `LogBotFactory.__init__(channel, key, db)` computes
`self.filename = "logs/{0}".format(channel)`; the database handle is opaque and
unused by the core. -/
def logPath (channel : String) : String :=
  "logs/" ++ channel

/-- `LogBotFactory.buildProtocol`: a fresh protocol instance with
`p.factory = self`; the class attribute `nickname` is `'tonkon'` and no
`logger` attribute is bound yet. -/
def buildProtocol (channel key : String) : LogBot :=
  { nickname := "tonkon", channel := channel, key := key,
    filename := logPath channel, logger := none,
    sent := [], joins := [], dispatched := [] }

/-- `LogBot.connectionMade`: open `self.factory.filename` in append mode, bind
`self.logger`, and log `"[connected at %s]" % time.asctime(...)` (the asctime
rendering is passed in as the string `asc`). -/
def LogBot.connectionMade (b : LogBot) (fs : FS) (t : HMS) (asc : String) : LogBot :=
  let l := openAppend fs b.filename
  { b with logger := some (l.log t ("[connected at " ++ asc ++ "]")) }

/-- `LogBot.connectionLost`: log `"[disconnected at %s]" % time.asctime(...)`
and close the logger.  Reading `self.logger` when `connectionMade` never bound
it raises `AttributeError`. -/
def LogBot.connectionLost (b : LogBot) (t : HMS) (asc : String) : Except String LogBot :=
  match b.logger with
  | none => .error "AttributeError: LogBot instance has no attribute logger"
  | some l =>
      let l1 := (l.log t ("[disconnected at " ++ asc ++ "]")).close
      .ok { b with logger := some l1 }

/-- `LogBot.signedOn`: `self.join(self.factory.channel, self.factory.key)`. -/
def LogBot.signedOn (b : LogBot) : LogBot :=
  { b with joins := b.joins ++ [(b.channel, b.key)] }

/-- `LogBot.joined`: `self.logger.log("[I have joined %s]" % channel)`. -/
def LogBot.joined (b : LogBot) (t : HMS) (channel : String) : Except String LogBot :=
  match b.logger with
  | none => .error "AttributeError: LogBot instance has no attribute logger"
  | some l =>
      .ok { b with logger := some (l.log t ("[I have joined " ++ channel ++ "]")) }

/-- `LogBot.privmsg`: strip the sender at the first `'!'`, log `<user> msg`;
if the channel target equals the bot's nickname, reply to the sender with the
fixed refusal text and return; otherwise punt to
`tonkon.command_handler(self, user, channel, msg)`. -/
def LogBot.privmsg (b : LogBot) (t : HMS) (user channel msg : String) :
    Except String LogBot :=
  match b.logger with
  | none => .error "AttributeError: LogBot instance has no attribute logger"
  | some l =>
      let u := stripUser user
      let b1 := { b with logger := some (l.log t ("<" ++ u ++ "> " ++ msg)) }
      if channel = b.nickname then
        .ok { b1 with sent := b1.sent ++ [(u, whisperReply)] }
      else
        .ok { b1 with dispatched := b1.dispatched ++ [(u, channel, msg)] }

/-- `LogBot.action`: strip the sender at the first `'!'` and log `* user msg`;
the channel argument is unused and nothing is forwarded. -/
def LogBot.action (b : LogBot) (t : HMS) (user channel msg : String) :
    Except String LogBot :=
  match b.logger with
  | none => .error "AttributeError: LogBot instance has no attribute logger"
  | some l =>
      let u := stripUser user
      .ok { b with logger := some (l.log t ("* " ++ u ++ " " ++ msg)) }

/-- `LogBot.irc_NICK`: log `old is now known as new` with
`old_nick = prefix.split('!')[0]` and `new_nick = params[0]` (an empty
parameter list raises `IndexError`). -/
def LogBot.irc_NICK (b : LogBot) (t : HMS) (pfx : String) (params : List String) :
    Except String LogBot :=
  match b.logger, params with
  | none, _ => .error "AttributeError: LogBot instance has no attribute logger"
  | _, [] => .error "IndexError: list index out of range"
  | some l, new_nick :: _ =>
      let l1 := l.log t (stripUser pfx ++ " is now known as " ++ new_nick)
      .ok { b with logger := some l1 }

/-- `LogBot.alterCollidedNick`: append `'^'` to the colliding nickname. -/
def alterCollidedNick (nickname : String) : String :=
  nickname ++ "^"

/-- The sequence of nickname candidates produced during one connection attempt:
the configured nickname, then repeated applications of the collision rule. -/
def nickCandidates (n : String) : Nat → String
  | 0 => n
  | k + 1 => alterCollidedNick (nickCandidates n k)

/-- The transport connector held by the supervisor: the target endpoint and how
many `connector.connect()` calls have been issued against it. -/
structure Connector where
  host : String
  port : Nat
  attempts : Nat
deriving DecidableEq, Repr

/-- The event loop: whether `reactor.stop()` ran, and what was printed. -/
structure Reactor where
  stopped : Bool
  printed : List String
deriving DecidableEq, Repr

/-- `LogBotFactory.clientConnectionLost`: "If we get disconnected, reconnect to
server." — `connector.connect()` against the same connector, nothing else. -/
def LogBotFactory.clientConnectionLost (c : Connector) (r : Reactor)
    (_reason : String) : Connector × Reactor :=
  ({ c with attempts := c.attempts + 1 }, r)

/-- `LogBotFactory.clientConnectionFailed`:
`print "connection failed:", reason` then `reactor.stop()`. -/
def LogBotFactory.clientConnectionFailed (c : Connector) (r : Reactor)
    (reason : String) : Connector × Reactor :=
  (c, { r with printed := r.printed ++ ["connection failed: " ++ reason],
               stopped := true })

/-- `n` consecutive mid-session disconnects, each handled by
`clientConnectionLost`. -/
def repeatLost (c : Connector) (r : Reactor) : Nat → Connector × Reactor
  | 0 => (c, r)
  | k + 1 =>
      let p := repeatLost c r k
      LogBotFactory.clientConnectionLost p.1 p.2 "connection lost"

/-- A sequence of `log` calls against one logger, each with its wall-clock
time and message. -/
def MessageLogger.logMany (l : MessageLogger) (evs : List (HMS × String)) :
    MessageLogger :=
  evs.foldl (fun a e => a.log e.1 e.2) l

/-- One full session against `channel`: build the protocol, run
`connectionMade` (which opens `logs/<channel>` in append mode and logs the
connect line), log the events of the session, close, and read off the disk
state after all flushed writes. -/
def diskAfterSession (fs : FS) (channel key : String) (t : HMS) (asc : String)
    (evs : List (HMS × String)) : FS :=
  let b1 := (buildProtocol channel key).connectionMade fs t asc
  match b1.logger with
  | none => fs
  | some l => flushTo fs b1.filename (l.logMany evs).close

/-- A concrete logger handle over an empty file, used as a test fixture. -/
def sampleLogger : MessageLogger :=
  { init := "", writes := [], flushed := false, closed := false }

/-- A concrete connected bot (logger bound), used as a test fixture. -/
def sampleBot : LogBot :=
  { nickname := "tonkon", channel := "test", key := "sekrit",
    filename := logPath "test", logger := some sampleLogger,
    sent := [], joins := [], dispatched := [] }

/-- A freshly built protocol instance whose `connectionMade` never ran, so the
`logger` attribute is unbound. -/
def freshBot : LogBot := buildProtocol "test" "sekrit"

/-! ## Helper lemmas -/

/-- Stripping at `'!'` is the identity on identifiers with no `'!'`. -/
theorem stripUser_no_bang (u : String) (h : '!' ∉ u.data) : stripUser u = u := by
  obtain ⟨d⟩ := u
  have h1 : d.takeWhile (fun c => c ≠ '!') = d := by
    apply List.takeWhile_eq_self_iff.mpr
    intro x hx
    simpa using fun hc : x = '!' => h (hc ▸ hx)
  exact congrArg String.mk h1

/-- `pad2` renders every number below 100 with exactly two characters. -/
theorem pad2_length : ∀ n, n < 100 → (pad2 n).length = 2 := by decide

/-- A valid local time renders as exactly ten characters `[HH:MM:SS]`. -/
theorem strftimeHMS_length (t : HMS) (h1 : t.hour < 24) (h2 : t.minute < 60)
    (h3 : t.second < 60) : (strftimeHMS t).length = 10 := by
  have p1 : (pad2 t.hour).length = 2 := pad2_length t.hour (by omega)
  have p2 : (pad2 t.minute).length = 2 := pad2_length t.minute (by omega)
  have p3 : (pad2 t.second).length = 2 := pad2_length t.second (by omega)
  simp [strftimeHMS, String.length_append, p1, p2, p3]
  rfl

/-- Folding string concatenation only extends the accumulator. -/
theorem foldl_append_extends (ws : List String) :
    ∀ a : String, ∃ r, ws.foldl (fun x s => x ++ s) a = a ++ r := by
  induction ws with
  | nil => exact fun a => ⟨"", (String.append_empty a).symm⟩
  | cons w ws ih =>
      intro a
      obtain ⟨r, hr⟩ := ih (a ++ w)
      exact ⟨w ++ r, by simp [List.foldl_cons, hr, String.append_assoc]⟩

/-- A logger's visible contents extend the contents present at open time. -/
theorem contents_extends_init (l : MessageLogger) : ∃ r, l.contents = l.init ++ r :=
  foldl_append_extends l.writes l.init

/-- One `log` call appends exactly its formatted chunk to the visible file. -/
theorem contents_log (l : MessageLogger) (t : HMS) (m : String) :
    (l.log t m).contents = l.contents ++ (strftimeHMS t ++ " " ++ m ++ "\n") := by
  simp [MessageLogger.log, MessageLogger.contents, List.foldl_append]

/-- `log` never changes the contents recorded at open time. -/
theorem log_init (l : MessageLogger) (t : HMS) (m : String) :
    (l.log t m).init = l.init := rfl

/-- `close` never changes the contents recorded at open time. -/
theorem close_init (l : MessageLogger) : l.close.init = l.init := rfl

/-- `logMany` never changes the contents recorded at open time. -/
theorem logMany_init (evs : List (HMS × String)) :
    ∀ l : MessageLogger, (l.logMany evs).init = l.init := by
  induction evs with
  | nil => exact fun _ => rfl
  | cons e evs ih =>
      intro l
      have h : l.logMany (e :: evs) = (l.log e.1 e.2).logMany evs := rfl
      rw [h, ih, log_init]

/-- Each collision round adds one character to the candidate's length. -/
theorem nickCandidates_length (n : String) (k : Nat) :
    (nickCandidates n k).length = n.length + k := by
  induction k with
  | zero => rfl
  | succ k ih =>
      have h : nickCandidates n (k + 1) = nickCandidates n k ++ "^" := rfl
      rw [h, String.length_append, ih]
      rfl

/-- `n` consecutive disconnects issue exactly `n` reconnect attempts against
the same endpoint and never touch the reactor. -/
theorem repeatLost_spec (c : Connector) (r : Reactor) :
    ∀ n, repeatLost c r n = ({ c with attempts := c.attempts + n }, r) := by
  intro n
  induction n with
  | zero => rfl
  | succ n ih =>
      simp [repeatLost, ih, LogBotFactory.clientConnectionLost]
      omega

/-- A session against `channel` only ever appends to `logs/<channel>`: the
prior contents of that path survive as a prefix of the contents after the
session. -/
theorem diskAfterSession_extends (fs : FS) (channel key : String) (t : HMS)
    (asc : String) (evs : List (HMS × String)) :
    ∃ r, diskAfterSession fs channel key t asc evs (logPath channel) =
      fs (logPath channel) ++ r := by
  have hinit :
      ((((openAppend fs (logPath channel)).log t
          ("[connected at " ++ asc ++ "]")).logMany evs).close).init =
        fs (logPath channel) := by
    rw [close_init, logMany_init, log_init]
    rfl
  obtain ⟨r, hr⟩ := contents_extends_init
    ((((openAppend fs (logPath channel)).log t
        ("[connected at " ++ asc ++ "]")).logMany evs).close)
  refine ⟨r, ?_⟩
  rw [hinit] at hr
  simpa [diskAfterSession, LogBot.connectionMade, buildProtocol, flushTo] using hr

/-! ## Claim theorems -/

/-- Claim C1: for every inbound message whose channel target equals the bot's
own nickname, the bot logs one line `<sender> text`, sends the sender exactly
one direct reply with the fixed refusal text, and never invokes the
CommandDispatcher (`dispatched` and `joins` are untouched). -/
theorem privmsg_whisper_refusal (nick ch k fn : String) (l : MessageLogger)
    (s j : List (String × String)) (d : List (String × String × String))
    (t : HMS) (user msg : String) :
    LogBot.privmsg ⟨nick, ch, k, fn, some l, s, j, d⟩ t user nick msg =
      .ok ⟨nick, ch, k, fn,
           some (l.log t ("<" ++ stripUser user ++ "> " ++ msg)),
           s ++ [(stripUser user, whisperReply)], j, d⟩ := by
  simp [LogBot.privmsg]

/-- Claim C2: failure handling is asymmetric — a connect failure prints the
reason and stops the event loop without touching the connector (no retry),
while a post-establishment connection loss immediately reconnects against the
same endpoint without stopping, with no backoff and no retry limit (`n`
consecutive losses give `n` reconnect attempts). -/
theorem supervisor_failure_asymmetry (c : Connector) (r : Reactor)
    (reason : String) (n : Nat) :
    LogBotFactory.clientConnectionFailed c r reason =
      (c, { r with printed := r.printed ++ ["connection failed: " ++ reason],
                   stopped := true }) ∧
    LogBotFactory.clientConnectionLost c r reason =
      ({ c with attempts := c.attempts + 1 }, r) ∧
    repeatLost c r n = ({ c with attempts := c.attempts + n }, r) :=
  ⟨rfl, rfl, repeatLost_spec c r n⟩

/-- Claim C3: a public message (channel target differs from the nickname) is
logged as exactly one line `<S-stripped> M` and then forwarded to the
CommandDispatcher as (stripped sender, channel, text) on the same connection
handle; no direct reply is sent. -/
theorem privmsg_public_logged_and_forwarded (b : LogBot) (l : MessageLogger)
    (t : HMS) (user channel msg : String) (hl : b.logger = some l)
    (hc : channel ≠ b.nickname) :
    b.privmsg t user channel msg =
      .ok { b with
        logger := some (l.log t ("<" ++ stripUser user ++ "> " ++ msg)),
        dispatched := b.dispatched ++ [(stripUser user, channel, msg)] } ∧
    (l.log t ("<" ++ stripUser user ++ "> " ++ msg)).writes =
      l.writes ++
        [strftimeHMS t ++ " " ++ ("<" ++ stripUser user ++ "> " ++ msg) ++ "\n"] := by
  exact ⟨by simp [LogBot.privmsg, hl, hc], rfl⟩

/-- Witness for claim C3 at a concrete public message. -/
theorem privmsg_public_logged_and_forwarded_witness :
    sampleBot.privmsg ⟨1, 2, 3⟩ "alice!a@example" "test" "hello" =
      .ok { sampleBot with
        logger := some (sampleLogger.log ⟨1, 2, 3⟩
          ("<" ++ stripUser "alice!a@example" ++ "> " ++ "hello")),
        dispatched := sampleBot.dispatched ++
          [(stripUser "alice!a@example", "test", "hello")] } ∧
    (sampleLogger.log ⟨1, 2, 3⟩
        ("<" ++ stripUser "alice!a@example" ++ "> " ++ "hello")).writes =
      sampleLogger.writes ++
        [strftimeHMS ⟨1, 2, 3⟩ ++ " " ++
          ("<" ++ stripUser "alice!a@example" ++ "> " ++ "hello") ++ "\n"] :=
  privmsg_public_logged_and_forwarded sampleBot sampleLogger ⟨1, 2, 3⟩
    "alice!a@example" "test" "hello" rfl (by decide)

/-- Claim C4 counterexample: on a protocol instance whose logger was never
initialized, `connectionLost` does not complete teardown silently — the
attribute access raises an error that escapes to the caller, so the claimed
defensive skip does not exist in the code. -/
theorem connectionLost_missing_logger_error :
    freshBot.connectionLost ⟨0, 0, 0⟩ "Thu Jan  1 00:00:00 1970" =
      .error "AttributeError: LogBot instance has no attribute logger" := rfl

/-- Claim C4 (amended): on transport loss with an initialized logger, the
session unconditionally logs a disconnection line with a timestamp and then
closes the logger; with an uninitialized logger the log call is not skipped —
an attribute error escapes to the caller. -/
theorem connectionLost_teardown (b : LogBot) (l : MessageLogger) (t : HMS)
    (asc : String) (hl : b.logger = some l) :
    b.connectionLost t asc =
      .ok { b with
        logger := some ((l.log t ("[disconnected at " ++ asc ++ "]")).close) } ∧
    ((l.log t ("[disconnected at " ++ asc ++ "]")).close).closed = true ∧
    ∀ b2 : LogBot, b2.logger = none → ∃ e, b2.connectionLost t asc = .error e := by
  refine ⟨by simp [LogBot.connectionLost, hl], rfl, ?_⟩
  intro b2 h2
  exact ⟨"AttributeError: LogBot instance has no attribute logger",
    by simp [LogBot.connectionLost, h2]⟩

/-- Witness for claim C4's amended theorem at a concrete connected bot and a
concrete unconnected bot. -/
theorem connectionLost_teardown_witness :
    sampleBot.connectionLost ⟨0, 0, 0⟩ "Sun Oct 11 10:00:00 2026" =
      .ok { sampleBot with
        logger := some ((sampleLogger.log ⟨0, 0, 0⟩
          ("[disconnected at " ++ "Sun Oct 11 10:00:00 2026" ++ "]")).close) } ∧
    ∃ e, freshBot.connectionLost ⟨0, 0, 0⟩ "Sun Oct 11 10:00:00 2026" = .error e :=
  ⟨(connectionLost_teardown sampleBot sampleLogger ⟨0, 0, 0⟩
      "Sun Oct 11 10:00:00 2026" rfl).1,
   (connectionLost_teardown sampleBot sampleLogger ⟨0, 0, 0⟩
      "Sun Oct 11 10:00:00 2026" rfl).2.2 freshBot rfl⟩

/-- Claim C5: `log` appends exactly one chunk to the file, consisting of the
local time formatted as the ten-character `[HH:MM:SS]`, a space, the message,
and a newline, and flushes the handle before returning. -/
theorem log_appends_one_timestamped_line (l : MessageLogger) (t : HMS)
    (m : String) (h1 : t.hour < 24) (h2 : t.minute < 60) (h3 : t.second < 60) :
    (l.log t m).writes = l.writes ++ [strftimeHMS t ++ " " ++ m ++ "\n"] ∧
    (l.log t m).writes.length = l.writes.length + 1 ∧
    (l.log t m).flushed = true ∧
    (l.log t m).contents = l.contents ++ (strftimeHMS t ++ " " ++ m ++ "\n") ∧
    (strftimeHMS t).length = 10 :=
  ⟨rfl, by simp [MessageLogger.log], rfl, contents_log l t m,
   strftimeHMS_length t h1 h2 h3⟩

/-- Witness for claim C5 at a concrete time and message. -/
theorem log_appends_one_timestamped_line_witness :
    (sampleLogger.log ⟨12, 34, 56⟩ "hello").writes =
      sampleLogger.writes ++ [strftimeHMS ⟨12, 34, 56⟩ ++ " " ++ "hello" ++ "\n"] ∧
    (sampleLogger.log ⟨12, 34, 56⟩ "hello").flushed = true ∧
    (strftimeHMS ⟨12, 34, 56⟩).length = 10 :=
  ⟨(log_appends_one_timestamped_line sampleLogger ⟨12, 34, 56⟩ "hello"
      (by decide) (by decide) (by decide)).1,
   (log_appends_one_timestamped_line sampleLogger ⟨12, 34, 56⟩ "hello"
      (by decide) (by decide) (by decide)).2.2.1,
   (log_appends_one_timestamped_line sampleLogger ⟨12, 34, 56⟩ "hello"
      (by decide) (by decide) (by decide)).2.2.2.2⟩

/-- Claim C6: each collision round produces the next candidate by appending
exactly the one marker character `'^'` to its predecessor, and all candidates
in one collision sequence are pairwise distinct. -/
theorem alterCollidedNick_appends_marker (n : String) :
    (∀ k, nickCandidates n (k + 1) = nickCandidates n k ++ "^") ∧
    (∀ i j, i ≠ j → nickCandidates n i ≠ nickCandidates n j) := by
  constructor
  · intro k
    rfl
  · intro i j hij hEq
    have hlen := congrArg String.length hEq
    rw [nickCandidates_length, nickCandidates_length] at hlen
    omega

/-- Witness for claim C6 on the configured nickname `tonkon`. -/
theorem alterCollidedNick_appends_marker_witness :
    nickCandidates "tonkon" 1 = nickCandidates "tonkon" 0 ++ "^" ∧
    nickCandidates "tonkon" 1 ≠ nickCandidates "tonkon" 2 :=
  ⟨(alterCollidedNick_appends_marker "tonkon").1 0,
   (alterCollidedNick_appends_marker "tonkon").2 1 2 (by decide)⟩

/-- Claim C7: every session opens the log file at the deterministic path
`logs/<channel>` in append mode, so one session, and a close followed by a
reopen against the same channel, both leave the original file contents intact
as a prefix (no truncation). -/
theorem session_log_path_append_roundtrip (fs : FS) (channel key : String)
    (t t' : HMS) (asc asc' : String) (evs evs' : List (HMS × String)) :
    (buildProtocol channel key).filename = "logs/" ++ channel ∧
    (openAppend fs (logPath channel)).init = fs (logPath channel) ∧
    (∃ r1, diskAfterSession fs channel key t asc evs (logPath channel) =
        fs (logPath channel) ++ r1) ∧
    (∃ r2, diskAfterSession (diskAfterSession fs channel key t asc evs)
        channel key t' asc' evs' (logPath channel) =
        fs (logPath channel) ++ r2) := by
  refine ⟨rfl, rfl, diskAfterSession_extends fs channel key t asc evs, ?_⟩
  obtain ⟨r1, hr1⟩ := diskAfterSession_extends fs channel key t asc evs
  obtain ⟨r2, hr2⟩ := diskAfterSession_extends
    (diskAfterSession fs channel key t asc evs) channel key t' asc' evs'
  exact ⟨r1 ++ r2, by rw [hr2, hr1, String.append_assoc]⟩

/-- Claim C8: on sign-on the bot issues exactly one join request carrying the
configured channel and key, and a join confirmation for channel `c` writes
exactly one log line `[I have joined <c>]`. -/
theorem signedOn_single_join_and_joined_log (b : LogBot) (l : MessageLogger)
    (t : HMS) (c : String) (hl : b.logger = some l) :
    b.signedOn = { b with joins := b.joins ++ [(b.channel, b.key)] } ∧
    b.signedOn.joins.length = b.joins.length + 1 ∧
    b.joined t c =
      .ok { b with logger := some (l.log t ("[I have joined " ++ c ++ "]")) } ∧
    (l.log t ("[I have joined " ++ c ++ "]")).writes =
      l.writes ++
        [strftimeHMS t ++ " " ++ ("[I have joined " ++ c ++ "]") ++ "\n"] :=
  ⟨rfl, by simp [LogBot.signedOn], by simp [LogBot.joined, hl], rfl⟩

/-- Witness for claim C8 on a concrete connected bot. -/
theorem signedOn_single_join_and_joined_log_witness :
    sampleBot.signedOn =
      { sampleBot with
        joins := sampleBot.joins ++ [(sampleBot.channel, sampleBot.key)] } ∧
    sampleBot.joined ⟨2, 3, 4⟩ "test" =
      .ok { sampleBot with
        logger := some (sampleLogger.log ⟨2, 3, 4⟩
          ("[I have joined " ++ "test" ++ "]")) } :=
  ⟨(signedOn_single_join_and_joined_log sampleBot sampleLogger ⟨2, 3, 4⟩
      "test" rfl).1,
   (signedOn_single_join_and_joined_log sampleBot sampleLogger ⟨2, 3, 4⟩
      "test" rfl).2.2.1⟩

/-- Claim C9: the private-message classification is exact, case-sensitive
string equality — a refusal reply is sent precisely when the channel target
equals the nickname character for character, and the message is forwarded to
the CommandDispatcher precisely when it differs in any character. -/
theorem privmsg_classification_case_sensitive (b : LogBot) (l : MessageLogger)
    (t : HMS) (user channel msg : String) (hl : b.logger = some l) :
    ∃ b', b.privmsg t user channel msg = .ok b' ∧
      (b'.sent ≠ b.sent ↔ channel = b.nickname) ∧
      (b'.dispatched ≠ b.dispatched ↔ channel ≠ b.nickname) := by
  by_cases hc : channel = b.nickname
  · refine ⟨{ b with
        logger := some (l.log t ("<" ++ stripUser user ++ "> " ++ msg)),
        sent := b.sent ++ [(stripUser user, whisperReply)] },
      by simp [LogBot.privmsg, hl, hc], ?_, ?_⟩
    · simp [hc]
    · simp [hc]
  · refine ⟨{ b with
        logger := some (l.log t ("<" ++ stripUser user ++ "> " ++ msg)),
        dispatched := b.dispatched ++ [(stripUser user, channel, msg)] },
      by simp [LogBot.privmsg, hl, hc], ?_, ?_⟩
    · simp [hc]
    · simp [hc]

/-- Witness for claim C9 at a channel target differing from the nickname only
in letter case: the bot treats it as public. -/
theorem privmsg_classification_case_sensitive_witness :
    ∃ b', sampleBot.privmsg ⟨3, 4, 5⟩ "bob!b@example" "Tonkon" "pssst" = .ok b' ∧
      (b'.sent ≠ sampleBot.sent ↔ ("Tonkon" : String) = sampleBot.nickname) ∧
      (b'.dispatched ≠ sampleBot.dispatched ↔
        ("Tonkon" : String) ≠ sampleBot.nickname) :=
  privmsg_classification_case_sensitive sampleBot sampleLogger ⟨3, 4, 5⟩
    "bob!b@example" "Tonkon" "pssst" rfl

/-- Claim C10: sender-identity normalization is the identity on identifiers
containing no `'!'`: the full sender string is used unchanged in the log line
and dispatcher call of the message handler, in the action handler's log line,
and in the nick-change handler's log line. -/
theorem stripUser_identity_without_delimiter (b : LogBot) (l : MessageLogger)
    (t : HMS) (user channel msg new_nick : String) (hl : b.logger = some l)
    (hu : '!' ∉ user.data) (hc : channel ≠ b.nickname) :
    stripUser user = user ∧
    b.privmsg t user channel msg =
      .ok { b with
        logger := some (l.log t ("<" ++ user ++ "> " ++ msg)),
        dispatched := b.dispatched ++ [(user, channel, msg)] } ∧
    b.action t user channel msg =
      .ok { b with logger := some (l.log t ("* " ++ user ++ " " ++ msg)) } ∧
    b.irc_NICK t user [new_nick] =
      .ok { b with
        logger := some (l.log t (user ++ " is now known as " ++ new_nick)) } := by
  have hs := stripUser_no_bang user hu
  exact ⟨hs,
    by simp [LogBot.privmsg, hl, hc, hs],
    by simp [LogBot.action, hl, hs],
    by simp [LogBot.irc_NICK, hl, hs]⟩

/-- Witness for claim C10 on a sender identifier with no `'!'`. -/
theorem stripUser_identity_without_delimiter_witness :
    stripUser "bob" = "bob" ∧
    sampleBot.action ⟨4, 5, 6⟩ "bob" "test" "waves" =
      .ok { sampleBot with
        logger := some (sampleLogger.log ⟨4, 5, 6⟩ ("* " ++ "bob" ++ " " ++ "waves")) } :=
  ⟨(stripUser_identity_without_delimiter sampleBot sampleLogger ⟨4, 5, 6⟩
      "bob" "test" "waves" "rob" rfl (by decide) (by decide)).1,
   (stripUser_identity_without_delimiter sampleBot sampleLogger ⟨4, 5, 6⟩
      "bob" "test" "waves" "rob" rfl (by decide) (by decide)).2.2.1⟩
